import Mathlib

/-!
Shallow embedding of the note-transfer and tempo protocols of the `trigger`
repository.

Encoder side (src/trigger.py): `send_melody` (the active, un-commented
version), `int_to_midi_bytes` and the helpers they rely on.  Decoder side
(src/device_test.py): the note-receiving state machine inside the
`OnMidiMsg` message handler, and `midi_notes_to_int`.

Modelling conventions:
* Python `int` is modelled as `ℤ` (arbitrary precision, `%` is `Int.emod`,
  which agrees with Python `%` on positive moduli).
* The `length`/`position` numbers are modelled as exact rationals `ℚ`.
  All concrete values exercised below are decimal fractions that are
  computed exactly, so no binary-floating-point rounding artefact can
  distinguish the model from CPython on the inputs considered.
* Python strings are modelled as `List Char`; `str.strip`, `str.split`,
  `int(str)` and `float(str)` are modelled below.  For `int()`/`float()`
  only the literal forms without exponent, underscores, infinities or NaN
  are accepted; all other strings are mapped to `none` (Python raises
  `ValueError`, which `send_melody` turns into skipping the line).
-/

/-- The whitespace test of Python `str.strip` (ASCII subset, which covers every
input in the repository and its spec). -/
def pyIsSpace (c : Char) : Bool :=
  c = ' ' || c = '\t' || c = '\n' || c = '\r' || c = '\x0b' || c = '\x0c'

/-- Python `str.strip()`: drop whitespace from both ends. -/
def pyStrip (cs : List Char) : List Char :=
  ((cs.dropWhile pyIsSpace).reverse.dropWhile pyIsSpace).reverse

/-- Python `str.split(sep)` for a one-character separator: splitting the
empty string yields `[""]`, and separators delimit (possibly empty)
fields. -/
def pySplit (sep : Char) : List Char → List (List Char)
  | [] => [[]]
  | c :: cs =>
    match pySplit sep cs with
    | [] => [[]]
    | g :: gs => if c = sep then [] :: g :: gs else (c :: g) :: gs

/-- Numeric value of a string of ASCII digits (most significant first). -/
def digitsVal (cs : List Char) : ℕ :=
  cs.foldl (fun a c => a * 10 + (c.toNat - 48)) 0

/-- A non-empty all-digit string. -/
def isDigits (cs : List Char) : Bool :=
  !cs.isEmpty && cs.all Char.isDigit

/-- Python `int(s)`: optional sign followed by digits, `ValueError`
(= `none`) otherwise. -/
def pyInt? (s : List Char) : Option ℤ :=
  match pyStrip s with
  | '-' :: rest => if isDigits rest then some (-(digitsVal rest : ℤ)) else none
  | '+' :: rest => if isDigits rest then some (digitsVal rest : ℤ) else none
  | cs => if isDigits cs then some (digitsVal cs : ℤ) else none

/-- Magnitude part of Python `float(s)`: `d+`, `d+.d*`, `d*.d+`. -/
def pyFloatMag? (cs : List Char) : Option ℚ :=
  match pySplit '.' cs with
  | [w] => if isDigits w then some (digitsVal w : ℚ) else none
  | [w, f] =>
    if w.all Char.isDigit && f.all Char.isDigit && !(w.isEmpty && f.isEmpty) then
      some ((digitsVal w : ℚ) + (digitsVal f : ℚ) / (10 : ℚ) ^ f.length)
    else none
  | _ => none

/-- Python `float(s)` restricted to plain decimal literals (no exponent /
inf / nan), which is the only form used by the inputs of the repository. -/
def pyFloat? (s : List Char) : Option ℚ :=
  match pyStrip s with
  | '-' :: rest => (pyFloatMag? rest).map (fun q => -q)
  | '+' :: rest => pyFloatMag? rest
  | cs => pyFloatMag? cs

/-- Python `int(x)` on a number: truncation toward zero. -/
def pyTrunc (q : ℚ) : ℤ := if 0 ≤ q then ⌊q⌋ else -⌊-q⌋

/-- Python 3 `round(x)`: round to nearest, ties to the even integer. -/
def pyRound (q : ℚ) : ℤ :=
  if q - (⌊q⌋ : ℚ) = 1 / 2 then (if ⌊q⌋ % 2 = 0 then ⌊q⌋ else ⌊q⌋ + 1)
  else round q

/-- A parsed, normalised note tuple
`(note, velocity, length, position)` as built by `send_melody`. -/
abbrev NoteEvent := ℤ × ℤ × ℚ × ℚ

/-- One iteration of the parsing loop of `send_melody` (src/trigger.py lines
421-434): split the stripped line on commas, require exactly 4 fields,
convert, clamp `note`/`velocity` to `[0,127]` and `length`/`position` to
non-negative; any conversion failure skips the line (`none`). -/
def parseLine (line : List Char) : Option NoteEvent :=
  match pySplit ',' (pyStrip line) with
  | [p0, p1, p2, p3] =>
    match pyInt? p0, pyInt? p1, pyFloat? p2, pyFloat? p3 with
    | some n, some v, some l, some p =>
      some (min 127 (max 0 n), min 127 (max 0 v), max 0 l, max 0 p)
    | _, _, _, _ => none
  | _ => none

/-- The parsing loop of `send_melody` (src/trigger.py lines 416-434):
strip the input, split on newlines, skip blank lines, parse each line,
skipping malformed ones. -/
def parseNotes (notes_data : List Char) : List NoteEvent :=
  (pySplit '\n' (pyStrip notes_data)).filterMap fun line =>
    if pyStrip line = [] then none else parseLine line

/-- `length_whole` / `position_whole` of src/trigger.py lines 449 and 457:
`min(127, int(x))`. -/
def wholePart (q : ℚ) : ℤ := min 127 (pyTrunc q)

/-- `length_decimal` / `position_decimal` of src/trigger.py lines 453 and
461: `int(round((x - x_whole) * 10)) % 10`. -/
def decimalPart (q : ℚ) : ℤ := pyRound ((q - (wholePart q : ℚ)) * 10) % 10

/-- The six values appended to `midi_data` for one note
(src/trigger.py lines 440-462). -/
def noteFrames (e : NoteEvent) : List ℤ :=
  [e.1, e.2.1, wholePart e.2.2.1, decimalPart e.2.2.1,
   wholePart e.2.2.2, decimalPart e.2.2.2]

/-- The `midi_data` array built by the per-note loop of `send_melody`
(successive appends, as in the for loop of the source). -/
def midiData (notes : List NoteEvent) : List ℤ :=
  notes.foldl (fun acc e => acc ++ noteFrames e) []

/-- `send_melody` (src/trigger.py lines 407-484).  The result is `none`
when the function returns the failure string before transmitting anything,
and `some w` when it succeeds, where `w` is the exact ordered sequence of
wire values emitted via `send_midi_note`: the start marker 0, the count
`min(127, len(notes))`, all of `midi_data`, and the end marker 127. -/
def send_melody (notes_data : List Char) : Option (List ℤ) :=
  let notes := parseNotes notes_data
  if notes = [] then none
  else some (0 :: min 127 (notes.length : ℤ) :: (midiData notes ++ [127]))

/-- The decoder-side reassembly `whole + decimal/10` (spec §4.2 and
src/device_test.py) applied to the two frames `wholePart q` and
`decimalPart q` that the encoder produces for the value `q`. -/
def reconstruct (q : ℚ) : ℚ := (wholePart q : ℚ) + (decimalPart q : ℚ) / 10

/-- Modelled from the spec (§3): a value "rounded to the nearest 0.1
beat".  Ties are resolved the way the rounding primitive of the encoder
(Python `round`, half-to-even) resolves them; no input considered below
hits a tie, so the tie policy does not affect any verdict. -/
def nearestTenth (q : ℚ) : ℚ := (pyRound (q * 10) : ℚ) / 10

/-- The `while value > 0` loop of `int_to_midi_bytes` (src/trigger.py
lines 92-97): prepend `value & 0x7F`, then shift right by 7. -/
def midiBytesLoop (v : ℕ) (acc : List ℕ) : List ℕ :=
  if h : v = 0 then acc
  else midiBytesLoop (v >>> 7) ((v &&& 127) :: acc)
termination_by v
decreasing_by
  simpa [Nat.shiftRight_eq_div_pow] using
    Nat.div_lt_self (Nat.pos_of_ne_zero h) (by norm_num)

/-- `int_to_midi_bytes` (src/trigger.py lines 73-99): negative input is
replaced by its absolute value, zero maps to `[0]`, otherwise the base-128
digits are produced most-significant first. -/
def int_to_midi_bytes (value : ℤ) : List ℕ :=
  let v := value.natAbs
  if v = 0 then [0] else midiBytesLoop v []

/-- `midi_notes_to_int` (src/device_test.py lines 31-50): clamp each value
to `[0,127]` and fold `result = (result << 7) | note_value`.  The running
result is a non-negative integer throughout, modelled as `ℕ`. -/
def midi_notes_to_int (midi_notes : List ℤ) : ℕ :=
  midi_notes.foldl (fun result note => (result <<< 7) ||| (min 127 (max 0 note)).toNat) 0

/-- The two values of the decoder variable `decimal_target`
(src/device_test.py), modelled as an enumeration. -/
inductive ParamTarget where
  | length
  | position
deriving DecidableEq, Repr

/-- The global mutable state used by the note-receiving protocol of `OnMidiMsg`
(src/device_test.py lines 178-209), as one record.  Fields keep the
the variable names of the source. -/
structure DecoderState where
  receiving_mode : Bool
  message_count : ℤ
  messages_received : ℤ
  midi_notes_array : List (ℤ × ℤ × ℚ × ℚ)
  current_note : Option ℤ
  current_velocity : Option ℤ
  current_length : Option ℚ
  current_position : Option ℚ
  decimal_state : ℤ
  decimal_value : ℚ
  decimal_target : Option ParamTarget
deriving DecidableEq, Repr

/-- The lazily initialised defaults of the decoder globals
(src/device_test.py lines 183-209). -/
def initState : DecoderState where
  receiving_mode := false
  message_count := 0
  messages_received := 0
  midi_notes_array := []
  current_note := none
  current_velocity := none
  current_length := none
  current_position := none
  decimal_state := 0
  decimal_value := 0
  decimal_target := none

/-- The reset performed on `note == 0 and not receiving_mode`
(src/device_test.py lines 217-231).  `decimal_value` is not reset by the
source and is preserved here too. -/
def startReceive (s : DecoderState) : DecoderState :=
  { s with
    receiving_mode := true
    midi_notes_array := []
    message_count := 0
    messages_received := 0
    current_note := none
    current_velocity := none
    current_length := none
    current_position := none
    decimal_state := 0
    decimal_target := none }

/-- The repeated Python test
`current_note is not None and current_velocity is not None and
current_length is not None and current_position is not None`. -/
def noteComplete (s : DecoderState) : Bool :=
  s.current_note.isSome && s.current_velocity.isSome &&
    s.current_length.isSome && s.current_position.isSome

/-- `midi_notes_array.append((current_note, current_velocity,
current_length, current_position))`, a no-op if any field is `None`
(the source only calls it after checking `noteComplete`). -/
def appendCurrent (s : DecoderState) : DecoderState :=
  match s.current_note, s.current_velocity, s.current_length, s.current_position with
  | some n, some v, some l, some p =>
    { s with midi_notes_array := s.midi_notes_array ++ [(n, v, l, p)] }
  | _, _, _, _ => s

/-- Resetting the four `current_*` variables to `None` for the next note. -/
def clearCurrent (s : DecoderState) : DecoderState :=
  { s with
    current_note := none
    current_velocity := none
    current_length := none
    current_position := none }

/-- The marker-dispatch chain of `OnMidiMsg` (src/device_test.py lines
247-346), entered after `messages_received` has been incremented:
`DECIMAL_MARKER = 100`, `LENGTH_MARKER = 101`, `POSITION_MARKER = 102`,
then the decimal-value, whole-value and plain-note branches. -/
def processData (s : DecoderState) (note velocity : ℤ) : DecoderState :=
  if note = 100 then
    { s with decimal_state := 1 }
  else if note = 101 then
    { s with decimal_target := some ParamTarget.length, decimal_state := 0 }
  else if note = 102 then
    { s with decimal_target := some ParamTarget.position, decimal_state := 0 }
  else if s.decimal_state = 1 then
    let dv : ℚ := (note : ℚ) / 10
    let s1 : DecoderState :=
      if s.decimal_target = some ParamTarget.length then
        { s with decimal_value := dv, current_length := some (s.current_length.getD 0 + dv) }
      else if s.decimal_target = some ParamTarget.position then
        { s with decimal_value := dv, current_position := some (s.current_position.getD 0 + dv) }
      else
        { s with decimal_value := dv }
    let s2 : DecoderState := { s1 with decimal_state := 0 }
    if noteComplete s2 ∧ s2.decimal_target = some ParamTarget.position then
      clearCurrent (appendCurrent s2)
    else s2
  else if s.decimal_target.isSome then
    if s.decimal_target = some ParamTarget.length then
      { s with current_length := some (note : ℚ) }
    else if s.decimal_target = some ParamTarget.position then
      let s1 : DecoderState := { s with current_position := some (note : ℚ) }
      if s1.current_note.isSome ∧ s1.current_velocity.isSome ∧ s1.current_length.isSome then
        if s1.messages_received < s1.message_count - 1 ∧ ¬note = 100 then
          clearCurrent (appendCurrent s1)
        else s1
      else s1
    else s
  else
    let s1 : DecoderState := if noteComplete s then appendCurrent s else s
    { s1 with current_note := some note, current_velocity := some velocity }

/-- The transfer-completion check at the end of `OnMidiMsg`
(src/device_test.py lines 349-368): once `messages_received >=
message_count`, leave receiving mode and flush a final complete note. -/
def endCheck (s : DecoderState) : DecoderState :=
  if s.messages_received ≥ s.message_count then
    let s1 : DecoderState := { s with receiving_mode := false }
    if noteComplete s1 then appendCurrent s1 else s1
  else s

/-- `OnMidiMsg` (src/device_test.py lines 171-372) for one note-on message
with `data1 = note` and `data2 = velocity > 0` (note-offs and zero
velocities are filtered out by the guard at line 212 and leave the state
unchanged, so they are not modelled as steps).  Branches, in source order:
start receiving on `note == 0 and not receiving_mode`; otherwise read the
count if it is still 0; otherwise ignore the message when not receiving;
otherwise count the message, dispatch on its value and run the
completion check. -/
def OnMidiMsg (s : DecoderState) (note velocity : ℤ) : DecoderState :=
  if note = 0 ∧ s.receiving_mode = false then
    startReceive s
  else if s.receiving_mode = true ∧ s.message_count = 0 then
    { s with message_count := note }
  else if s.receiving_mode = false then
    s
  else
    endCheck (processData { s with messages_received := s.messages_received + 1 } note velocity)

/-- Feed a sequence of wire values to the decoder, starting from the
freshly initialised globals.  Every value arrives as a note-on of
velocity 1, exactly as emitted by `send_midi_note` (src/trigger.py lines
487-496, default `velocity=1`). -/
def runDecoder (wire : List ℤ) : DecoderState :=
  wire.foldl (fun s v => OnMidiMsg s v 1) initState

/-! ### Structural lemmas about the decoder state machine -/

@[simp] theorem appendCurrent_receiving_mode (s : DecoderState) :
    (appendCurrent s).receiving_mode = s.receiving_mode := by
  unfold appendCurrent; split <;> rfl

@[simp] theorem appendCurrent_message_count (s : DecoderState) :
    (appendCurrent s).message_count = s.message_count := by
  unfold appendCurrent; split <;> rfl

@[simp] theorem appendCurrent_messages_received (s : DecoderState) :
    (appendCurrent s).messages_received = s.messages_received := by
  unfold appendCurrent; split <;> rfl

@[simp] theorem clearCurrent_receiving_mode (s : DecoderState) :
    (clearCurrent s).receiving_mode = s.receiving_mode := rfl

@[simp] theorem clearCurrent_message_count (s : DecoderState) :
    (clearCurrent s).message_count = s.message_count := rfl

@[simp] theorem clearCurrent_messages_received (s : DecoderState) :
    (clearCurrent s).messages_received = s.messages_received := rfl

theorem processData_receiving_mode (s : DecoderState) (note velocity : ℤ) :
    (processData s note velocity).receiving_mode = s.receiving_mode := by
  unfold processData
  split_ifs <;> simp [apply_ite DecoderState.receiving_mode]

theorem processData_message_count (s : DecoderState) (note velocity : ℤ) :
    (processData s note velocity).message_count = s.message_count := by
  unfold processData
  split_ifs <;> simp [apply_ite DecoderState.message_count]

theorem processData_messages_received (s : DecoderState) (note velocity : ℤ) :
    (processData s note velocity).messages_received = s.messages_received := by
  unfold processData
  split_ifs <;> simp [apply_ite DecoderState.messages_received]

theorem endCheck_message_count (s : DecoderState) :
    (endCheck s).message_count = s.message_count := by
  unfold endCheck
  split_ifs <;> simp [apply_ite DecoderState.message_count]

theorem endCheck_messages_received (s : DecoderState) :
    (endCheck s).messages_received = s.messages_received := by
  unfold endCheck
  split_ifs <;> simp [apply_ite DecoderState.messages_received]

theorem endCheck_receiving_mode (s : DecoderState) :
    (endCheck s).receiving_mode =
      if s.message_count ≤ s.messages_received then false else s.receiving_mode := by
  unfold endCheck
  split_ifs with h <;> simp_all [apply_ite DecoderState.receiving_mode]

/-! ### Claims C1-C3: the decoder against the protocol of the spec -/

/-- C1 (code_bug evidence): the protocol round-trip already fails on a
single well-formed note.  The encoder emits the positional-frame wire
sequence `[0, 1, 60, 100, 1, 0, 0, 0, 127]` for the input
`"60,100,1.0,0.0"`, but feeding exactly that sequence to the decoder
reconstructs no notes at all: the decoder (which still implements the
legacy marker protocol and reads the count as a message count) closes the
transfer after the first data value, then re-enters receiving mode on the
trailing zero frames and finally misreads the end marker 127 as a new
expected count. -/
theorem C1_roundtrip_fails :
    send_melody (r"60,100,1.0,0.0").data = some [0, 1, 60, 100, 1, 0, 0, 0, 127] ∧
    (runDecoder [0, 1, 60, 100, 1, 0, 0, 0, 127]).midi_notes_array = [] ∧
    (runDecoder [0, 1, 60, 100, 1, 0, 0, 0, 127]).receiving_mode = true ∧
    (runDecoder [0, 1, 60, 100, 1, 0, 0, 0, 127]).message_count = 127 :=
  ⟨by with_unfolding_all rfl, by decide, by decide, by decide⟩

/-- C2 (counterexample): the claim predicts that a start marker 0 arriving
mid-transfer (here after the count 6 and three data values) restarts the
transfer and makes the next value (5) the new expected count.  In the code
`note == 0` is only honoured when `receiving_mode` is false, so the count
remains 6. -/
theorem C2_counterexample_thm :
    ¬ (runDecoder [0, 6, 60, 100, 1, 0, 5]).message_count = 5 := by decide

/-- C2 (amended): a value 0 is a start marker only when the decoder is not
in receiving mode.  While receiving, a 0 is consumed like any other value:
if the count is still unset it is stored as the (zero) count and the state
is otherwise unchanged; once the count is set, the 0 is ordinary data --
the declared count is kept and the message counter advances by one. -/
theorem C2_amended_thm (s : DecoderState) :
    (s.receiving_mode = false → OnMidiMsg s 0 1 = startReceive s) ∧
    (s.receiving_mode = true → s.message_count = 0 → OnMidiMsg s 0 1 = s) ∧
    (s.receiving_mode = true → s.message_count ≠ 0 →
      (OnMidiMsg s 0 1).message_count = s.message_count ∧
      (OnMidiMsg s 0 1).messages_received = s.messages_received + 1) := by
  refine ⟨fun h => ?_, fun h h0 => ?_, fun h h0 => ?_⟩
  · unfold OnMidiMsg
    rw [if_pos ⟨rfl, h⟩]
  · unfold OnMidiMsg
    rw [if_neg (by simp [h]), if_pos ⟨h, h0⟩]
    cases s
    simp_all
  · unfold OnMidiMsg
    rw [if_neg (by simp [h]), if_neg (by simp [h0]), if_neg (by simp [h])]
    constructor
    · rw [endCheck_message_count, processData_message_count]
    · rw [endCheck_messages_received, processData_messages_received]

/-- C2 (witness for the amended theorem): after `[0, 6]` the decoder is
receiving with declared count 6; processing a 0 keeps the count and
advances the message counter. -/
theorem C2_amended_witness :
    (OnMidiMsg (runDecoder [0, 6]) 0 1).message_count = (runDecoder [0, 6]).message_count ∧
    (OnMidiMsg (runDecoder [0, 6]) 0 1).messages_received =
      (runDecoder [0, 6]).messages_received + 1 :=
  (C2_amended_thm (runDecoder [0, 6])).2.2 (by decide) (by decide)

/-- C3 (counterexample): the claim predicts that the end marker 127,
observed as the next value outside an in-progress note (here directly
after the count 2), returns the decoder to idle.  In the code 127 has no
marker role at all: it is consumed as data, and the decoder stays in
receiving mode. -/
theorem C3_counterexample_thm :
    ¬ (runDecoder [0, 2, 127]).receiving_mode = false := by decide

/-- C3 (amended): while the decoder is receiving with a nonzero declared
count, processing one more value leaves receiving mode exactly when the
count of received data values reaches the declared count.  This holds for
every value, including 127 and the marker values: completed notes are not
what is counted, and 127 is never an end marker for the decoder. -/
theorem C3_amended_thm (s : DecoderState) (v : ℤ)
    (h : s.receiving_mode = true) (h0 : s.message_count ≠ 0) :
    (OnMidiMsg s v 1).receiving_mode = false ↔
      s.message_count ≤ s.messages_received + 1 := by
  unfold OnMidiMsg
  rw [if_neg (by simp [h]), if_neg (by simp [h0]), if_neg (by simp [h])]
  rw [endCheck_receiving_mode, processData_messages_received, processData_message_count,
    processData_receiving_mode]
  show (if s.message_count ≤ s.messages_received + 1 then false else s.receiving_mode) = false ↔ _
  split_ifs with hc <;> simp_all

/-- C3 (witness for the amended theorem): after `[0, 1]` the declared
count is 1, so the very next value -- 127 here -- ends the transfer, and
the equivalence confirms it. -/
theorem C3_amended_witness :
    (OnMidiMsg (runDecoder [0, 1]) 127 1).receiving_mode = false ↔
      (runDecoder [0, 1]).message_count ≤ (runDecoder [0, 1]).messages_received + 1 :=
  C3_amended_thm (runDecoder [0, 1]) 127 (by decide) (by decide)

/-! ### Claims C4, C6, C7, C9: the encoder -/

theorem noteFrames_length (e : NoteEvent) : (noteFrames e).length = 6 := rfl

theorem midiData_foldl (notes : List NoteEvent) :
    ∀ acc : List ℤ,
      notes.foldl (fun acc e => acc ++ noteFrames e) acc =
        acc ++ (notes.map noteFrames).flatten := by
  induction notes with
  | nil => intro acc; simp
  | cons e rest ih => intro acc; simp [ih]

theorem midiData_eq_join (notes : List NoteEvent) :
    midiData notes = (notes.map noteFrames).flatten := by
  simpa using midiData_foldl notes []

theorem midiData_length (notes : List NoteEvent) :
    (midiData notes).length = 6 * notes.length := by
  rw [midiData_eq_join]
  induction notes with
  | nil => simp
  | cons e rest ih => simp [ih, noteFrames_length]; ring

/-- C4: whenever the input normalises to at least one valid note, the
emitted wire sequence is exactly the start marker 0, the saturating count
`min 127 k`, then the six positional frames of every note in input order,
then the end marker 127; and when the input normalises to 200 notes the
declared count is 127 while all `6 * 200 = 1200` note frames are still
transmitted. -/
theorem C4_wire_format (notes_data : List Char) (h : parseNotes notes_data ≠ []) :
    send_melody notes_data =
      some (0 :: min 127 ((parseNotes notes_data).length : ℤ) ::
        (((parseNotes notes_data).map noteFrames).flatten ++ [127])) ∧
    ((parseNotes notes_data).length = 200 →
      min 127 ((parseNotes notes_data).length : ℤ) = 127 ∧
      (midiData (parseNotes notes_data)).length = 1200) := by
  constructor
  · unfold send_melody
    rw [if_neg h, midiData_eq_join]
  · intro h200
    refine ⟨by rw [h200]; norm_num, ?_⟩
    rw [midiData_length, h200]

/-- C4 (witness): the single-note input emits exactly the claimed framed
sequence. -/
theorem C4_witness :
    send_melody (r"60,100,1.0,0.0").data =
      some (0 :: min 127 ((parseNotes (r"60,100,1.0,0.0").data).length : ℤ) ::
        (((parseNotes (r"60,100,1.0,0.0").data).map noteFrames).flatten ++ [127])) :=
  (C4_wire_format ((r"60,100,1.0,0.0").data) (by decide)).1

/-- C6: when parsing and normalisation yield zero valid notes,
`send_melody` reports failure (`none`) and, by the wire model, emits no
messages at all: the transmission code is only reached on the `some`
branch. -/
theorem C6_empty_input (notes_data : List Char) (h : parseNotes notes_data = []) :
    send_melody notes_data = none := by
  unfold send_melody
  rw [if_pos h]

/-- C6 (witness): a single malformed 3-field line produces zero valid
notes and a failure result. -/
theorem C6_witness : send_melody (r"60,100,1.0").data = none :=
  C6_empty_input ((r"60,100,1.0").data) (by decide)

/-- C7: the malformed 3-field line `"60,100,1.0"` is skipped while the
valid line `"60,100,1.0,0.0"` is kept, so the two lines together yield a
transfer containing exactly one note, whose wire sequence declares count 1
and carries one 6-frame payload. -/
theorem C7_malformed_line_skipped :
    (parseNotes ((r"60,100,1.0").data ++ '\n' :: (r"60,100,1.0,0.0").data)).length = 1 ∧
    send_melody ((r"60,100,1.0").data ++ '\n' :: (r"60,100,1.0,0.0").data) =
      some [0, 1, 60, 100, 1, 0, 0, 0, 127] :=
  ⟨by with_unfolding_all rfl, by with_unfolding_all rfl⟩

/-- C9: out-of-range inputs are clamped, never fatal: the line
`"200,-5,-1.5,-0.3"` parses to the clamped note `(127, 0, 0, 0)`, its
transfer carries the frames `127, 0, 0, 0, 0, 0`, and on the decoder
boundary `midi_notes_to_int` clamps every single value into `[0, 127]`
(its result type is non-negative by construction). -/
theorem C9_clamping :
    parseLine (r"200,-5,-1.5,-0.3").data = some (127, 0, 0, 0) ∧
    send_melody (r"200,-5,-1.5,-0.3").data = some [0, 1, 127, 0, 0, 0, 0, 0, 127] ∧
    ∀ d : ℤ, midi_notes_to_int [d] ≤ 127 := by
  refine ⟨by with_unfolding_all rfl, by with_unfolding_all rfl, fun d => ?_⟩
  have h : midi_notes_to_int [d] = (min 127 (max 0 d)).toNat := by
    simp [midi_notes_to_int]
  rw [h]
  omega

/-! ### Claim C5: the decimal frames and the 0.1-beat rounding -/

theorem pyTrunc_eq_floor (q : ℚ) (h : 0 ≤ q) : pyTrunc q = ⌊q⌋ := by
  unfold pyTrunc
  rw [if_pos h]

theorem pyRound_nonneg (q : ℚ) (h : 0 ≤ q) : 0 ≤ pyRound q := by
  unfold pyRound
  have hf : 0 ≤ ⌊q⌋ := Int.floor_nonneg.mpr h
  split_ifs with h1 h2
  · exact hf
  · omega
  · rw [round_eq]
    exact Int.floor_nonneg.mpr (by linarith)

/-- Shifting by a multiple of ten commutes with the Python half-to-even
rounding: the shift is by an even integer, so the tie-break parity is
unchanged. -/
theorem pyRound_ten_mul_int_add (m : ℤ) (x : ℚ) :
    pyRound (((10 * m : ℤ) : ℚ) + x) = 10 * m + pyRound x := by
  unfold pyRound
  simp only [show ∀ r : ℚ, r - (⌊r⌋ : ℚ) = Int.fract r from fun r => rfl]
  rw [Int.fract_int_add, Int.floor_int_add]
  split_ifs with h1 h2 h3 <;> first | omega | exact round_int_add x (10 * m)

/-- C5 (counterexample): for the valid note value 0.96 the rounded
tenths count computed by the encoder is 10, the `% 10` discards the carry, and the
reconstructed value is 0.0 although the nearest tenth is 1.0. -/
theorem C5_counterexample_thm :
    reconstruct (96 / 100 : ℚ) = 0 ∧ nearestTenth (96 / 100 : ℚ) = 1 ∧
    reconstruct (96 / 100 : ℚ) ≠ nearestTenth (96 / 100 : ℚ) := by
  have e1 : reconstruct (96 / 100 : ℚ) = 0 := by with_unfolding_all rfl
  have e2 : nearestTenth (96 / 100 : ℚ) = 1 := by with_unfolding_all rfl
  exact ⟨e1, e2, by rw [e1, e2]; norm_num⟩

/-- C5 (amended): the encoded decimal frame is always a single digit in
`[0, 9]`, and `whole + decimal/10` equals the input rounded to the nearest
0.1 beat for every value in `[0, 128)` whose rounded tenths do not carry
into a whole beat (`pyRound ((q - whole) * 10) ≤ 9`) -- in particular for
every value of `[0, 127.9]` at one-decimal resolution.  The
counterexample 0.96 shows the carry case is genuinely lost. -/
theorem C5_amended_thm (q : ℚ) (h0 : 0 ≤ q) (h1 : q < 128)
    (h2 : pyRound ((q - (wholePart q : ℚ)) * 10) ≤ 9) :
    (0 ≤ decimalPart q ∧ decimalPart q ≤ 9) ∧ reconstruct q = nearestTenth q := by
  have hw : wholePart q = ⌊q⌋ := by
    unfold wholePart
    rw [pyTrunc_eq_floor q h0]
    refine min_eq_right ?_
    have hlt : ⌊q⌋ < 128 := Int.floor_lt.mpr (by exact_mod_cast h1)
    omega
  have hfrac0 : 0 ≤ (q - (⌊q⌋ : ℚ)) * 10 := by
    have := Int.floor_le q
    have hq : 0 ≤ q - (⌊q⌋ : ℚ) := by linarith
    positivity
  have hr0 : 0 ≤ pyRound ((q - (⌊q⌋ : ℚ)) * 10) := pyRound_nonneg _ hfrac0
  have h2f : pyRound ((q - (⌊q⌋ : ℚ)) * 10) ≤ 9 := by rwa [hw] at h2
  have hd : decimalPart q = pyRound ((q - (⌊q⌋ : ℚ)) * 10) := by
    unfold decimalPart
    rw [hw]
    exact Int.emod_eq_of_lt hr0 (by omega)
  refine ⟨⟨by rw [hd]; exact hr0, by rw [hd]; exact h2f⟩, ?_⟩
  unfold reconstruct nearestTenth
  rw [hd, hw]
  have hsplit : q * 10 = ((10 * ⌊q⌋ : ℤ) : ℚ) + (q - (⌊q⌋ : ℚ)) * 10 := by
    push_cast
    ring
  rw [hsplit, pyRound_ten_mul_int_add]
  push_cast
  ring

/-- C5 (witness for the amended theorem): the one-decimal value 1.3 is
encoded as whole 1, decimal 3, and reconstructs to its own nearest
tenth. -/
theorem C5_amended_witness :
    (0 ≤ decimalPart (13 / 10 : ℚ) ∧ decimalPart (13 / 10 : ℚ) ≤ 9) ∧
    reconstruct (13 / 10 : ℚ) = nearestTenth (13 / 10 : ℚ) :=
  C5_amended_thm (13 / 10) (by norm_num) (by norm_num)
    (by
      have h : pyRound (((13 / 10 : ℚ) - (wholePart (13 / 10 : ℚ) : ℚ)) * 10) = 3 := by
        with_unfolding_all rfl
      rw [h]
      norm_num)

/-! ### Claims C8 and C10: the tempo codec -/

theorem midiBytesLoop_eq_digits (v : ℕ) :
    ∀ acc : List ℕ, midiBytesLoop v acc = (Nat.digits 128 v).reverse ++ acc := by
  induction v using Nat.strong_induction_on with
  | _ v ih =>
    intro acc
    rw [midiBytesLoop]
    split_ifs with h
    · simp [h]
    · have hlt : v >>> 7 < v := by
        rw [Nat.shiftRight_eq_div_pow]
        exact Nat.div_lt_self (Nat.pos_of_ne_zero h) (by norm_num)
      rw [ih (v >>> 7) hlt ((v &&& 127) :: acc)]
      have hand : v &&& 127 = v % 128 := by
        rw [show (127 : ℕ) = 2 ^ 7 - 1 by norm_num, Nat.and_pow_two_sub_one_eq_mod]
      have hshift : v >>> 7 = v / 128 := by
        rw [Nat.shiftRight_eq_div_pow]
      rw [hand, hshift, Nat.digits_def' (by norm_num : 1 < 128) (Nat.pos_of_ne_zero h)]
      simp

/-- For a value below 128, or-ing it into a 7-bit-shifted accumulator is
plain positional arithmetic. -/
theorem shiftOr_eq (r d : ℕ) (hd : d < 128) : (r <<< 7) ||| d = r * 128 + d := by
  have h : d < 2 ^ 7 := by simpa using hd
  calc (r <<< 7) ||| d = (2 ^ 7 * r) ||| d := by rw [Nat.shiftLeft_eq, Nat.mul_comm]
    _ = 2 ^ 7 * r + d := (Nat.mul_add_lt_is_or h r).symm
    _ = r * 128 + d := by ring

theorem decode_map_cast (l : List ℕ) (hl : ∀ d ∈ l, d < 128) :
    ∀ r : ℕ,
      List.foldl (fun result note => (result <<< 7) ||| (min 127 (max 0 note)).toNat) r
        (l.map (fun d : ℕ => (d : ℤ))) = r * 128 ^ l.length + Nat.ofDigits 128 l.reverse := by
  induction l with
  | nil => intro r; simp
  | cons d L ih =>
    intro r
    have hd : d < 128 := hl d (List.mem_cons_self d L)
    have hL : ∀ x ∈ L, x < 128 := fun x hx => hl x (List.mem_cons_of_mem d hx)
    simp only [List.map_cons, List.foldl_cons]
    have hclamp : (min 127 (max 0 (d : ℤ))).toNat = d := by omega
    rw [hclamp, shiftOr_eq r d hd, ih hL (r * 128 + d)]
    rw [List.reverse_cons, Nat.ofDigits_append, Nat.ofDigits_singleton,
      List.length_reverse, List.length_cons]
    ring

theorem int_to_midi_bytes_eq_digits (value : ℤ) (h : value.natAbs ≠ 0) :
    int_to_midi_bytes value = (Nat.digits 128 value.natAbs).reverse := by
  simp only [int_to_midi_bytes]
  rw [if_neg h, midiBytesLoop_eq_digits, List.append_nil]

theorem int_to_midi_bytes_173 : int_to_midi_bytes 173 = [1, 45] := by
  simp [int_to_midi_bytes, midiBytesLoop]
  decide

/-- C8: `int_to_midi_bytes` produces the minimal most-significant-first
base-128 digit decomposition (zero maps to `[0]`, and for a nonzero value
the leading digit is nonzero), `midi_notes_to_int` folds digits back with
`result * 128 + digit`, and for every BPM integer in `[20, 999]` decoding
the encoding returns the original value; in particular 173 encodes to
`[1, 45]` and that sequence decodes back to 173. -/
theorem C8_tempo_roundtrip (n : ℤ) (h1 : 20 ≤ n) (h2 : n ≤ 999) :
    (midi_notes_to_int ((int_to_midi_bytes n).map (fun d : ℕ => (d : ℤ))) : ℤ) = n ∧
    int_to_midi_bytes 0 = [0] ∧
    (int_to_midi_bytes n).head? ≠ some 0 ∧
    int_to_midi_bytes 173 = [1, 45] ∧
    midi_notes_to_int [1, 45] = 173 := by
  have hv : n.natAbs ≠ 0 := by omega
  have hdigits : ∀ d ∈ (Nat.digits 128 n.natAbs).reverse, d < 128 := by
    intro d hd
    rw [List.mem_reverse] at hd
    exact Nat.digits_lt_base (by norm_num) hd
  refine ⟨?_, rfl, ?_, int_to_midi_bytes_173, by decide⟩
  · rw [int_to_midi_bytes_eq_digits n hv]
    unfold midi_notes_to_int
    rw [decode_map_cast _ hdigits 0]
    simp [Nat.ofDigits_digits]
    omega
  · rw [int_to_midi_bytes_eq_digits n hv, List.head?_reverse]
    have hne : Nat.digits 128 n.natAbs ≠ [] := Nat.digits_ne_nil_iff_ne_zero.mpr hv
    rw [List.getLast?_eq_getLast _ hne]
    have hlast := Nat.getLast_digit_ne_zero 128 hv
    simp [hlast]

/-- C8 (witness): the round trip at BPM 173. -/
theorem C8_witness :
    (midi_notes_to_int ((int_to_midi_bytes 173).map (fun d : ℕ => (d : ℤ))) : ℤ) = 173 :=
  (C8_tempo_roundtrip 173 (by norm_num) (by norm_num)).1

/-- C10: for every integer input, `int_to_midi_bytes` returns a non-empty
list of values in `[0, 127]` (non-negative by the `ℕ` value type), and a
negative input is encoded as its absolute value, so `-n` and `n` produce
identical digit sequences. -/
theorem C10_negative_abs (value : ℤ) :
    int_to_midi_bytes value ≠ [] ∧
    (∀ d ∈ int_to_midi_bytes value, d ≤ 127) ∧
    int_to_midi_bytes (-value) = int_to_midi_bytes value := by
  have hneg : int_to_midi_bytes (-value) = int_to_midi_bytes value := by
    simp only [int_to_midi_bytes]
    rw [Int.natAbs_neg]
  by_cases h : value.natAbs = 0
  · have h0 : int_to_midi_bytes value = [0] := by
      simp only [int_to_midi_bytes]
      rw [if_pos h]
    refine ⟨by simp [h0], ?_, hneg⟩
    intro d hd
    rw [h0] at hd
    simp at hd
    omega
  · refine ⟨?_, ?_, hneg⟩
    · rw [int_to_midi_bytes_eq_digits value h]
      have hne : Nat.digits 128 value.natAbs ≠ [] :=
        Nat.digits_ne_nil_iff_ne_zero.mpr h
      simpa using hne
    · intro d hd
      rw [int_to_midi_bytes_eq_digits value h, List.mem_reverse] at hd
      have := Nat.digits_lt_base (by norm_num : 1 < 128) hd
      omega

/-- C9 (witness): the decoder-side clamp at the out-of-range value 200. -/
theorem C9_witness : midi_notes_to_int [200] ≤ 127 :=
  C9_clamping.2.2 200

/-- C10 (witness): the sign collapse at 173, and the digit bound
discharged at the concrete member 45 of the encoding of -173. -/
theorem C10_witness :
    int_to_midi_bytes (-173) = int_to_midi_bytes 173 ∧ (45 : ℕ) ≤ 127 :=
  ⟨(C10_negative_abs 173).2.2,
   (C10_negative_abs (-173)).2.1 45 (by
      rw [(C10_negative_abs 173).2.2, int_to_midi_bytes_173]
      simp)⟩
